import Mathlib

/-!
Shallow embedding of the `life_game` predator-prey simulation.

The embedding translates the Rust sources (`src/lib.rs`, `src/cell.rs`,
`src/individual/prey.rs`, `src/individual/predator.rs`) into Lean:

* probabilities (`f32` values compared against uniform draws in `[0,1)`) are
  modelled as rationals;
* `u32`/`usize` counters are modelled as `Nat` (hunger is bounded by
  `death_after` before every increment, so wrap-around can never occur);
* `i32` coordinates are modelled as `Int`, with Rust's `%` on `i32`
  (truncated remainder) modelled by `Int.tmod`;
* the thread-local random generator is modelled as an explicit stream of
  uniform rational draws (for `rng.gen::<f32>()`) and of raw natural draws
  (for `random_range`/`choose` index selection);
* shared mutable cells (`Rc<RefCell<Cell>>`) are modelled by explicit state
  passing: each organism update returns the list of neighbour-cell writes it
  performed, which the caller folds into the grid, and reads performed after
  an earlier write within the same update see the written value, exactly as
  the live `RefCell` reads do in Rust;
* `HashSet<(i32,i32)>` is modelled as a duplicate-free list with
  `List.insert` / `List.erase` (iteration order of a `HashSet` is
  implementation-defined; the list order is one such order);
* the `kd_tree` crate's nearest-neighbour query over the stored point list is
  modelled as an exact arg-min of the squared planar distance (the crate's
  tie-breaking between equidistant points is structural and unspecified; the
  model returns the first minimum in point-list order);
* a Rust panic (sampling `random_range` over an empty range during seeding)
  is modelled by `Option`: `Simulation.new` returns `none` exactly when the
  Rust constructor would panic.
-/

namespace LifeGame

/-- Explicit model of the thread-local RNG: a stream of uniform draws in
`[0,1)` (rationals, consumed by `rng.gen::<f32>()`) and a stream of raw
natural draws (consumed by `random_range` and slice `choose`). An exhausted
stream yields `0`. -/
structure Rng where
  probs : List ℚ
  nats : List ℕ
deriving DecidableEq

/-- Consume one uniform draw in `[0,1)`. -/
def Rng.nextProb : Rng → ℚ × Rng
  | ⟨[], ns⟩ => (0, ⟨[], ns⟩)
  | ⟨p :: ps, ns⟩ => (p, ⟨ps, ns⟩)

/-- Consume one raw natural draw. -/
def Rng.nextNat : Rng → ℕ × Rng
  | ⟨ps, []⟩ => (0, ⟨ps, []⟩)
  | ⟨ps, n :: ns⟩ => (n, ⟨ps, ns⟩)

/-- `slice::choose`: `None` on an empty slice (no draw consumed), otherwise
an element selected by the next raw draw, reduced modulo the length. Every
index is reachable by a suitable draw, matching uniform selection. -/
def chooseRand {α : Type} (l : List α) (rng : Rng) : Option α × Rng :=
  match l with
  | [] => (none, rng)
  | _ :: _ =>
    let kr := rng.nextNat
    (l[kr.1 % l.length]?, kr.2)

/-- State of a prey individual (`Prey` in `individual/prey.rs`). -/
structure Prey where
  reproduction_rate : ℚ
  moving_factor : ℚ
  x : ℤ
  y : ℤ
deriving DecidableEq

/-- `Prey::new`. -/
def Prey.new (reproduction_rate moving_factor : ℚ) (x y : ℤ) : Prey :=
  { reproduction_rate, moving_factor, x, y }

/-- State of a predator individual (`Predator` in `individual/predator.rs`). -/
structure Predator where
  hunting_factor : ℚ
  reproduction_rate : ℚ
  death_after : ℕ
  hunger : ℕ
  death_rate : ℚ
  x : ℤ
  y : ℤ
  grid_width : ℤ
  grid_height : ℤ
deriving DecidableEq

/-- `Predator::new`: hunger starts at half the starvation threshold and the
natural death probability is the hard-coded constant `0.1`. -/
def Predator.new (hunting_factor reproduction_rate : ℚ) (death_after : ℕ)
    (x y grid_width grid_height : ℤ) : Predator :=
  { hunting_factor, reproduction_rate, death_after,
    hunger := death_after / 2, death_rate := mkRat 1 10,
    x, y, grid_width, grid_height }

/-- The occupant stored in a cell's `content` field (`Box<dyn Individual>`). -/
inductive Indiv where
  | prey (p : Prey)
  | predator (q : Predator)
deriving DecidableEq

/-- A grid cell (`Cell` in `cell.rs`): the occupant together with the three
occupancy flags, which in the Rust code are maintained separately from
`content` and only changed by `empty()` and `set_content()`. -/
structure Cell where
  content : Option Indiv
  is_empty : Bool
  is_prey : Bool
  is_predator : Bool
deriving DecidableEq

/-- `Cell::new`: initially empty. -/
def Cell.new : Cell := ⟨none, true, false, false⟩

/-- `Cell::empty`: clear the occupant and reset every flag. -/
def Cell.emptyCell : Cell := ⟨none, true, false, false⟩

/-- `Cell::set_content`. -/
def Cell.set_content (content : Indiv) (is_prey is_predator : Bool) : Cell :=
  ⟨some content, false, is_prey, is_predator⟩

/-- A cell value tagged with its coordinates: the model of one
`Rc<RefCell<Cell>>` entry of a neighbour list, and also of one performed
write (coordinate, new cell value). -/
abbrev CellAt := (ℤ × ℤ) × Cell

/-- Result of `Predator::hunt`: the mutated predator, the neighbour writes it
performed, the success flag it returned, and the remaining randomness. -/
structure HuntResult where
  self : Predator
  writes : List CellAt
  success : Bool
  rng : Rng
deriving DecidableEq

/-- Result of `Prey::reproduce` / `Predator::reproduce`. -/
structure RepResult where
  occurred : Bool
  writes : List CellAt
  rng : Rng
deriving DecidableEq

/-- Result of `Prey::move_to` / `Predator::move_to`. -/
structure MoveResult (α : Type) where
  moved : Bool
  self : α
  writes : List CellAt
  rng : Rng
deriving DecidableEq

/-- Result of one `Individual::update` call: whether the organism vacated its
cell (died or moved), its final state, the neighbour writes, and the
remaining randomness. -/
structure StepResult (α : Type) where
  removed : Bool
  self : α
  writes : List CellAt
  rng : Rng
deriving DecidableEq

/-- `Predator::hunt`: scan the neighbour list in order; for every cell whose
`is_prey` flag is set, draw once; on the first successful draw reset hunger,
empty that cell and return success. -/
def Predator.hunt (self : Predator) (local_contents : List CellAt) (rng : Rng) :
    HuntResult :=
  match local_contents with
  | [] => ⟨self, [], false, rng⟩
  | cv :: rest =>
    if cv.2.is_prey then
      let rr := rng.nextProb
      if rr.1 < self.hunting_factor then
        ⟨{ self with hunger := 0 }, [(cv.1, Cell.emptyCell)], true, rr.2⟩
      else Predator.hunt self rest rr.2
    else Predator.hunt self rest rng

/-- `Predator::reproduce`: refuse when hunger has reached half of
`death_after`; need between 1 and 3 predator neighbours; then draw against
`reproduction_rate` and, on success, place `Predator::new` offspring into a
randomly chosen cell of the empty-neighbour list. -/
def Predator.reproduce (self : Predator) (local_contents : List CellAt)
    (local_empty_cells : List (ℤ × ℤ)) (rng : Rng) : RepResult :=
  if self.death_after / 2 ≤ self.hunger then ⟨false, [], rng⟩
  else
    let nb_predator := local_contents.countP (fun cv => cv.2.is_predator)
    if nb_predator = 0 ∨ 4 ≤ nb_predator then ⟨false, [], rng⟩
    else
      let rr := rng.nextProb
      if self.reproduction_rate ≤ rr.1 then ⟨false, [], rr.2⟩
      else
        let ch := chooseRand local_empty_cells rr.2
        match ch.1 with
        | some c =>
          let offspring := Predator.new self.hunting_factor self.reproduction_rate
            self.death_after c.1 c.2 self.grid_width self.grid_height
          ⟨true, [(c, Cell.set_content (.predator offspring) false true)], ch.2⟩
        | none => ⟨false, [], ch.2⟩

/-- `Predator::move_to`, random-fallback branch: move into a randomly chosen
cell of the (already known to be non-empty) empty-neighbour list. -/
def Predator.randomMove (self : Predator) (local_empty_cells : List (ℤ × ℤ))
    (rng : Rng) : MoveResult Predator :=
  let ch := chooseRand local_empty_cells rng
  match ch.1 with
  | some c =>
    let self' := { self with x := c.1, y := c.2 }
    ⟨true, self', [(c, Cell.set_content (.predator self') false true)], ch.2⟩
  | none => ⟨false, self, [], ch.2⟩

/-- The directed single-step target of `Predator::move_to`: per axis, take
the direct step when the direct distance is at most the wrap-around distance
(`direct_dist <= wrap_dist`), otherwise step the other way; then wrap with
`(coord + d + dim) % dim`. -/
def Predator.step_target (self : Predator) (t : ℤ × ℤ) : ℤ × ℤ :=
  let dx : ℤ :=
    if t.1 = self.x then 0
    else
      let direct_dist := |t.1 - self.x|
      let wrap_dist := self.grid_width - direct_dist
      if direct_dist ≤ wrap_dist then (if self.x < t.1 then 1 else -1)
      else (if self.x < t.1 then -1 else 1)
  let dy : ℤ :=
    if t.2 = self.y then 0
    else
      let direct_dist := |t.2 - self.y|
      let wrap_dist := self.grid_height - direct_dist
      if direct_dist ≤ wrap_dist then (if self.y < t.2 then 1 else -1)
      else (if self.y < t.2 then -1 else 1)
  (Int.tmod (self.x + dx + self.grid_width) self.grid_width,
   Int.tmod (self.y + dy + self.grid_height) self.grid_height)

/-- `Predator::move_to`: nothing happens without an empty neighbour; with a
known nearest prey, move into the first empty-neighbour entry matching the
wrap-aware directed target; otherwise (or when no prey location is known)
fall back to a random empty neighbour. -/
def Predator.move_to (self : Predator) (nearest_prey : Option (ℤ × ℤ))
    (local_empty_cells : List (ℤ × ℤ)) (rng : Rng) : MoveResult Predator :=
  if local_empty_cells.isEmpty then ⟨false, self, [], rng⟩
  else
    match nearest_prey with
    | some t =>
      let tgt := Predator.step_target self t
      match local_empty_cells.find? (fun e => decide (e.1 = tgt.1 ∧ e.2 = tgt.2)) with
      | some e =>
        let self' := { self with x := tgt.1, y := tgt.2 }
        ⟨true, self', [(e, Cell.set_content (.predator self') false true)], rng⟩
      | none => Predator.randomMove self local_empty_cells rng
    | none => Predator.randomMove self local_empty_cells rng

/-- Replay a list of performed writes onto a neighbour snapshot, so that the
later reads of the same `RefCell`s observe the earlier mutations. -/
def applyWritesList (local_contents : List CellAt) (ws : List CellAt) :
    List CellAt :=
  ws.foldl
    (fun cs w => cs.map (fun cv => if cv.1 = w.1 then (cv.1, w.2) else cv))
    local_contents

/-- `<Predator as Individual>::update`: increment hunger; die on the natural
death draw or on starvation (both checked before any other action); hunt;
then reproduce (staying put on success); otherwise move. -/
def Predator.update (self : Predator) (nearest_prey : Option (ℤ × ℤ))
    (local_contents : List CellAt) (local_empty_cells : List (ℤ × ℤ))
    (rng : Rng) : StepResult Predator :=
  let self1 := { self with hunger := self.hunger + 1 }
  let rr := rng.nextProb
  if rr.1 < self.death_rate then ⟨true, self1, [], rr.2⟩
  else if self.death_after ≤ self1.hunger then ⟨true, self1, [], rr.2⟩
  else
    let h := Predator.hunt self1 local_contents rr.2
    let contents2 := applyWritesList local_contents h.writes
    let rep := Predator.reproduce h.self contents2 local_empty_cells h.rng
    if rep.occurred then ⟨false, h.self, h.writes ++ rep.writes, rep.rng⟩
    else
      let mv := Predator.move_to h.self nearest_prey local_empty_cells rep.rng
      ⟨mv.moved, mv.self, h.writes ++ mv.writes, mv.rng⟩

/-- `Prey::reproduce`: need between 1 and 3 prey neighbours; then draw
against `reproduction_rate` and, on success, place `Prey::new` offspring into
a randomly chosen cell of the empty-neighbour list. -/
def Prey.reproduce (self : Prey) (local_contents : List CellAt)
    (local_empty_cells : List (ℤ × ℤ)) (rng : Rng) : RepResult :=
  let nb_prey := local_contents.countP (fun cv => cv.2.is_prey)
  if nb_prey = 0 ∨ 4 ≤ nb_prey then ⟨false, [], rng⟩
  else
    let rr := rng.nextProb
    if self.reproduction_rate ≤ rr.1 then ⟨false, [], rr.2⟩
    else
      let ch := chooseRand local_empty_cells rr.2
      match ch.1 with
      | some c =>
        let offspring := Prey.new self.reproduction_rate self.moving_factor c.1 c.2
        ⟨true, [(c, Cell.set_content (.prey offspring) true false)], ch.2⟩
      | none => ⟨false, [], ch.2⟩

/-- `Prey::move_to`: nothing without an empty neighbour; draw against
`moving_factor`; on success move into a randomly chosen empty neighbour. -/
def Prey.move_to (self : Prey) (local_empty_cells : List (ℤ × ℤ)) (rng : Rng) :
    MoveResult Prey :=
  if local_empty_cells.isEmpty then ⟨false, self, [], rng⟩
  else
    let rr := rng.nextProb
    if self.moving_factor ≤ rr.1 then ⟨false, self, [], rr.2⟩
    else
      let ch := chooseRand local_empty_cells rr.2
      match ch.1 with
      | some c =>
        let self' := { self with x := c.1, y := c.2 }
        ⟨true, self', [(c, Cell.set_content (.prey self') true false)], ch.2⟩
      | none => ⟨false, self, [], ch.2⟩

/-- `<Prey as Individual>::update`: reproduce first (staying put on
success), otherwise try to move. -/
def Prey.update (self : Prey) (local_contents : List CellAt)
    (local_empty_cells : List (ℤ × ℤ)) (rng : Rng) : StepResult Prey :=
  let rep := Prey.reproduce self local_contents local_empty_cells rng
  if rep.occurred then ⟨false, self, rep.writes, rep.rng⟩
  else
    let mv := Prey.move_to self local_empty_cells rep.rng
    ⟨mv.moved, mv.self, mv.writes, mv.rng⟩

/-- The grid: a total map from coordinates to cells, the model of the
`Vec<Vec<Rc<RefCell<Cell>>>>` arena (coordinates outside
`[0,width) × [0,height)` are never read by the translated code). -/
abbrev Grid := ℤ × ℤ → Cell

/-- Overwrite one cell of the grid. -/
def setCell (g : Grid) (c : ℤ × ℤ) (v : Cell) : Grid :=
  fun c' => if c' = c then v else g c'

/-- Fold a list of performed writes into the grid, in order. -/
def applyWrites (g : Grid) (ws : List CellAt) : Grid :=
  ws.foldl (fun g w => setCell g w.1 w.2) g

/-- The eight Moore offsets, in the order of `Simulation::neighbor_offsets`
(first component is the x offset). -/
def neighbor_offsets : List (ℤ × ℤ) :=
  [(-1, -1), (-1, 0), (-1, 1), (0, -1), (0, 1), (1, -1), (1, 0), (1, 1)]

/-- Toroidal neighbour coordinates of a cell, in offset order, computed as in
`Simulation::init_grid`: `(coord + offset + dim) % dim`. -/
def neighbor_coords (w h : ℕ) (c : ℤ × ℤ) : List (ℤ × ℤ) :=
  neighbor_offsets.map (fun o =>
    (Int.tmod (c.1 + o.1 + (w : ℤ)) (w : ℤ),
     Int.tmod (c.2 + o.2 + (h : ℤ)) (h : ℤ)))

/-- `Cell::update`, lifted to the grid: with no content return `false`;
otherwise snapshot the neighbour list and its empty sub-list (by the
`is_empty` flag, before any mutation), run the occupant's rule, fold its
neighbour writes into the grid, and leave the occupant in place exactly when
the rule returned `false`. The occupancy flags of the updated cell itself are
never touched here, mirroring `content.take()` / conditional restore in
`cell.rs`. -/
def Cell.update (w h : ℕ) (g : Grid) (c : ℤ × ℤ)
    (nearest_prey : Option (ℤ × ℤ)) (rng : Rng) : Grid × Bool × Rng :=
  match (g c).content with
  | none => (g, false, rng)
  | some ind =>
    let local_contents : List CellAt := (neighbor_coords w h c).map (fun n => (n, g n))
    let local_empty_cells : List (ℤ × ℤ) :=
      (local_contents.filter (fun cv => cv.2.is_empty)).map (fun cv => cv.1)
    match ind with
    | .prey p =>
      let res := Prey.update p local_contents local_empty_cells rng
      let g1 := applyWrites g res.writes
      let g2 := setCell g1 c
        { g1 c with content := if res.removed then none else some (.prey res.self) }
      (g2, res.removed, res.rng)
    | .predator q =>
      let res := Predator.update q nearest_prey local_contents local_empty_cells rng
      let g1 := applyWrites g res.writes
      let g2 := setCell g1 c
        { g1 c with content := if res.removed then none else some (.predator res.self) }
      (g2, res.removed, res.rng)

/-- `SimulationConfig` (public configuration of `lib.rs`). -/
structure SimulationConfig where
  width : ℕ
  height : ℕ
  prey_reproduction_rate : ℚ
  prey_moving_factor : ℚ
  predator_hunting_factor : ℚ
  predator_reproduction_rate : ℚ
  predator_death_after : ℕ
  nb_prey_init : ℕ
  nb_predator_init : ℕ
deriving DecidableEq

/-- The simulation state (`Simulation` in `lib.rs`). `prey_kdtree` stores the
point list the k-d tree was last built from; the empty list models the
absent tree (`None`). -/
structure Simulation where
  width : ℕ
  height : ℕ
  grid : Grid
  prey_positions : List (ℤ × ℤ)
  predator_positions : List (ℤ × ℤ)
  prey_kdtree : List (ℤ × ℤ)
  nb_prey : ℕ
  nb_predator : ℕ

/-- Squared planar distance, the comparison key of the k-d tree query. -/
def sqDist (a b : ℤ × ℤ) : ℤ := (a.1 - b.1) ^ 2 + (a.2 - b.2) ^ 2

/-- Nearest point of a list under squared planar distance (first minimum in
list order; the crate's tie-break is unspecified but deterministic). -/
def nearestIn (pts : List (ℤ × ℤ)) (pos : ℤ × ℤ) : Option (ℤ × ℤ) :=
  pts.foldl
    (fun best p =>
      match best with
      | none => some p
      | some b => if sqDist p pos < sqDist b pos then some p else some b)
    none

/-- `Simulation::get_nearest_prey`, parameterised by the stored tree points
and the current `prey_positions` (both read from `self` in Rust): `None`
unless a tree exists and `prey_positions` is non-empty. -/
def get_nearest_prey (kdtree prey_positions : List (ℤ × ℤ))
    (predator_pos : ℤ × ℤ) : Option (ℤ × ℤ) :=
  if kdtree ≠ [] ∧ prey_positions ≠ [] then nearestIn kdtree predator_pos
  else none

/-- Row-major scan order of `Simulation::update`'s snapshot loop
(`for y { for x { .. } }`, pushing `(x, y)`). -/
def coordsRowMajor (w h : ℕ) : List (ℤ × ℤ) :=
  (List.range h).flatMap (fun y => (List.range w).map (fun x => ((x : ℤ), (y : ℤ))))

/-- Result of the snapshot loop of `Simulation::update`. -/
structure Snapshot where
  prey_cells : List (ℤ × ℤ)
  predator_cells : List (ℤ × ℤ)
  prey_positions : List (ℤ × ℤ)
  predator_positions : List (ℤ × ℤ)
deriving DecidableEq

/-- Snapshot loop of `Simulation::update`: classify every non-empty cell by
its flags, collecting the ordered cell lists and inserting the coordinates
into the (pre-existing, never cleared) position sets. -/
def Simulation.collect_cells (sim : Simulation) : Snapshot :=
  (coordsRowMajor sim.width sim.height).foldl
    (fun acc c =>
      let cell := sim.grid c
      if cell.is_empty then acc
      else if cell.is_prey then
        { acc with
          prey_cells := acc.prey_cells ++ [c],
          prey_positions := acc.prey_positions.insert c }
      else if cell.is_predator then
        { acc with
          predator_cells := acc.predator_cells ++ [c],
          predator_positions := acc.predator_positions.insert c }
      else acc)
    ⟨[], [], sim.prey_positions, sim.predator_positions⟩

/-- Predator loop of `Simulation::update`: for each snapshot predator cell in
order, query the nearest prey against the stale tree and the snapshot
position set, run `Cell::update`, and drop the origin coordinate from
`predator_positions` when the cell reported a removal. -/
def predator_phase (w h : ℕ) (kdtree prey_pos : List (ℤ × ℤ))
    (cells : List (ℤ × ℤ)) (st : Grid × List (ℤ × ℤ) × Rng) :
    Grid × List (ℤ × ℤ) × Rng :=
  cells.foldl
    (fun st c =>
      let nearest := get_nearest_prey kdtree prey_pos c
      let r := Cell.update w h st.1 c nearest st.2.2
      (r.1, if r.2.1 then st.2.1.erase c else st.2.1, r.2.2))
    st

/-- Prey loop of `Simulation::update`: for each snapshot prey cell in order,
re-check the `is_prey` flag (the cell may have been emptied by a hunt) and
only then run `Cell::update`, dropping the origin coordinate from
`prey_positions` when the cell reported a removal. -/
def prey_phase (w h : ℕ) (cells : List (ℤ × ℤ))
    (st : Grid × List (ℤ × ℤ) × Rng) : Grid × List (ℤ × ℤ) × Rng :=
  cells.foldl
    (fun st c =>
      if (st.1 c).is_prey then
        let r := Cell.update w h st.1 c none st.2.2
        (r.1, if r.2.1 then st.2.1.erase c else st.2.1, r.2.2)
      else st)
    st

/-- `Simulation::update`: snapshot, predator phase, prey phase, then rebuild
the k-d tree from the final `prey_positions`. The population counters are the
snapshot cell-list lengths. -/
def Simulation.update (sim : Simulation) (rng : Rng) : Simulation :=
  let snap := sim.collect_cells
  let stP := predator_phase sim.width sim.height sim.prey_kdtree
    snap.prey_positions snap.predator_cells
    (sim.grid, snap.predator_positions, rng)
  let stQ := prey_phase sim.width sim.height snap.prey_cells
    (stP.1, snap.prey_positions, stP.2.2)
  { sim with
    grid := stQ.1,
    prey_positions := stQ.2.1,
    predator_positions := stP.2.1,
    prey_kdtree := stQ.2.1,
    nb_prey := snap.prey_cells.length,
    nb_predator := snap.predator_cells.length }

/-- One seeding placement of `Simulation::init_grid`: sample a coordinate
uniformly (`random_range(0..dim)`, modelled as a raw draw reduced modulo the
dimension) and overwrite the cell there — collisions silently overwrite. -/
def seed_step (config : SimulationConfig) (mk : ℤ → ℤ → Indiv)
    (is_prey is_predator : Bool) (st : Grid × List (ℤ × ℤ) × ℕ × Rng) :
    Grid × List (ℤ × ℤ) × ℕ × Rng :=
  let kx := st.2.2.2.nextNat
  let ky := kx.2.nextNat
  let x : ℤ := (kx.1 % config.width : ℕ)
  let y : ℤ := (ky.1 % config.height : ℕ)
  (setCell st.1 (x, y) (Cell.set_content (mk x y) is_prey is_predator),
   st.2.1.insert (x, y), st.2.2.1 + 1, ky.2)

/-- `Simulation::new` (including `init_grid`): no validation is performed.
The result is `none` exactly when Rust would panic, i.e. when a positive
initial population must be sampled over a zero-sized dimension
(`random_range(0..0)`). Otherwise the grid starts empty, prey then predators
are seeded at random coordinates (collisions overwrite, counters still count
every placement), and the k-d tree is built from the final prey positions. -/
def Simulation.new (config : SimulationConfig) (rng : Rng) : Option Simulation :=
  if (config.nb_prey_init ≠ 0 ∨ config.nb_predator_init ≠ 0) ∧
      (config.width = 0 ∨ config.height = 0) then none
  else
    let g0 : Grid := fun _ => Cell.new
    let sP := (List.range config.nb_prey_init).foldl
      (fun st _ => seed_step config
        (fun x y => .prey (Prey.new config.prey_reproduction_rate
          config.prey_moving_factor x y)) true false st)
      (g0, [], 0, rng)
    let sQ := (List.range config.nb_predator_init).foldl
      (fun st _ => seed_step config
        (fun x y => .predator (Predator.new config.predator_hunting_factor
          config.predator_reproduction_rate config.predator_death_after
          x y (config.width : ℤ) (config.height : ℤ))) false true st)
      (sP.1, [], 0, sP.2.2.2)
    some
      { width := config.width, height := config.height, grid := sQ.1,
        prey_positions := sP.2.1, predator_positions := sQ.2.1,
        prey_kdtree := sP.2.1, nb_prey := sP.2.2.1, nb_predator := sQ.2.2.1 }

/-- Does a cell's `content` actually hold a prey individual? -/
def holdsPrey (cl : Cell) : Bool :=
  match cl.content with
  | some (.prey _) => true
  | _ => false

/-- Does a cell's `content` actually hold a predator individual? -/
def holdsPredator (cl : Cell) : Bool :=
  match cl.content with
  | some (.predator _) => true
  | _ => false

/-! ### Specification-side definitions (for refinement comparison) -/

/-- Written from the specification's movement sentence: per axis, choose
whichever of the direct or the wrap-around distance is shorter, breaking
ties toward the direct path; `0` when the coordinates agree. -/
def spec_axis_step (c t dim : ℤ) : ℤ :=
  if t = c then 0
  else
    let direct := |t - c|
    let wrap := dim - direct
    let towards : ℤ := if c < t then 1 else -1
    if direct < wrap then towards
    else if wrap < direct then -towards
    else towards

/-- The specification's directed single-step target: one wrap-aware step per
axis toward the nearest prey. -/
def spec_directed_target (p : Predator) (t : ℤ × ℤ) : ℤ × ℤ :=
  (Int.tmod (p.x + spec_axis_step p.x t.1 p.grid_width + p.grid_width) p.grid_width,
   Int.tmod (p.y + spec_axis_step p.y t.2 p.grid_height + p.grid_height) p.grid_height)

/-- The move result that places the predator into the cell at `c`. -/
def moved_into (p : Predator) (c : ℤ × ℤ) (rng : Rng) : MoveResult Predator :=
  ⟨true, { p with x := c.1, y := c.2 },
   [(c, Cell.set_content (.predator { p with x := c.1, y := c.2 }) false true)], rng⟩

/-- A move result is a random move among `es`: the next raw draw selects the
element (reduced modulo the length), the predator moves there, and every
element of `es` is selected by some draw. -/
def spec_random_move (p : Predator) (es : List (ℤ × ℤ)) (rng : Rng)
    (res : MoveResult Predator) : Prop :=
  ∃ (k : ℕ) (rng' : Rng) (h : k % es.length < es.length),
    rng.nextNat = (k, rng') ∧ res = moved_into p (es.get ⟨k % es.length, h⟩) rng'

/-! ### Concrete instances used by the per-claim evaluations -/

/-- Placeholder simulation used only as the default of `Option.getD`; every
theorem that uses it separately proves the `Option` is `some`. -/
def junkSim : Simulation := ⟨0, 0, fun _ => Cell.new, [], [], [], 0, 0⟩

/-- A 3 x 3 grid, one prey, `moving_factor = 1`, `reproduction_rate = 0`. -/
def c1Config : SimulationConfig := ⟨3, 3, 0, 1, 0, 0, 25, 1, 0⟩

/-- The simulation seeded from `c1Config` with the prey placed at `(1,1)`. -/
def c1Start : Simulation := (Simulation.new c1Config ⟨[], [1, 1]⟩).getD junkSim

/-- One step of `c1Start`: the movement roll succeeds (draw `0`) and the
random choice picks the first empty neighbour, `(0,0)`. -/
def c1After : Simulation := c1Start.update ⟨[0], [0]⟩

/-- A 3 x 3 grid, one predator, `death_after = 1`, no prey. -/
def c2Config : SimulationConfig := ⟨3, 3, 0, 0, 0, 0, 1, 0, 1⟩

/-- The simulation seeded from `c2Config` with the predator at `(1,1)`. -/
def c2Start : Simulation := (Simulation.new c2Config ⟨[], [1, 1]⟩).getD junkSim

/-- One step of `c2Start`: the natural-death draw `1/2` fails, but hunger
reaches `death_after`, so the predator starves. -/
def c2After : Simulation := c2Start.update ⟨[mkRat 1 2], []⟩

/-- A predator that is too hungry to reproduce: `death_after = 10`, current
hunger `6` (reachable from `Predator::new`'s starting hunger `5` by one
uneventful step). -/
def c3Predator : Predator := ⟨0, mkRat 1 2, 10, 6, mkRat 1 10, 1, 1, 3, 3⟩

/-- Eight empty Moore neighbours of `(1,1)` on a 3 x 3 grid. -/
def c3Contents : List CellAt :=
  (neighbor_coords 3 3 (1, 1)).map (fun n => (n, Cell.new))

/-- The coordinates of those eight empty neighbours. -/
def c3Empties : List (ℤ × ℤ) := neighbor_coords 3 3 (1, 1)

/-- An arbitrary prey individual used to populate neighbour cells. -/
def witnessPrey : Prey := Prey.new (mkRat 3 10) (mkRat 1 2) 0 0

/-- A neighbour cell holding prey. -/
def witnessPreyCell : Cell := Cell.set_content (.prey witnessPrey) true false

/-- A predator with hunting factor `1/2` used for the hunting evaluation. -/
def c4Predator : Predator := ⟨mkRat 1 2, mkRat 1 2, 25, 3, mkRat 1 10, 1, 1, 3, 3⟩

/-- Two neighbour cells, both holding prey. -/
def c4Contents : List CellAt := [((0, 0), witnessPreyCell), ((0, 1), witnessPreyCell)]

/-- A predator that always hunts successfully (`hunting_factor = 1`) and is
far from starving. -/
def c5Predator : Predator := ⟨1, 1, 100, 0, mkRat 1 10, 1, 1, 3, 3⟩

/-- Eight neighbour cells of `(1,1)`, all holding prey: no empty neighbour
exists at snapshot time. -/
def c5Contents : List CellAt :=
  (neighbor_coords 3 3 (1, 1)).map (fun n => (n, witnessPreyCell))

/-- A 2 x 2 grid asked to hold five initial prey: more than its capacity. -/
def c9Config : SimulationConfig := ⟨2, 2, mkRat 3 10, mkRat 1 2, mkRat 1 2, mkRat 2 5, 25, 5, 0⟩

/-- Seeding draws for `c9Config`: places at `(0,0)`, `(1,0)`, `(0,1)`,
`(1,1)` and then again at `(0,0)` (a silent overwrite). -/
def c9Sim : Option Simulation :=
  Simulation.new c9Config ⟨[], [0, 0, 1, 0, 0, 1, 1, 1, 0, 0]⟩

/-! ### Claim theorems -/

/-- C1: the occupancy invariant fails after a completed step. Starting from a
freshly constructed simulation holding a single prey at `(1,1)` with
`moving_factor = 1`, one `update` moves the prey to `(0,0)`; afterwards the
grid holds a prey at `(0,0)` yet `(0,0)` is not in `prey_positions` (the set
became empty), and the vacated site `(1,1)` still carries the `is_prey` flag
with no content. So "a coordinate is in the prey set iff the site holds a
Prey" is violated in both directions. -/
theorem c1_occupancy_invariant_fails :
    (Simulation.new c1Config ⟨[], [1, 1]⟩).isSome = true
    ∧ holdsPrey (c1Start.grid (1, 1)) = true
    ∧ c1Start.prey_positions = [(1, 1)]
    ∧ holdsPrey (c1After.grid (0, 0)) = true
    ∧ (0, 0) ∉ c1After.prey_positions
    ∧ (c1After.grid (1, 1)).content = none
    ∧ (c1After.grid (1, 1)).is_prey = true := by decide

/-- C2: the accessors do not reflect the grid as of the end of the step, and
no end-of-step reconciliation exists. A lone predator with `death_after = 1`
starves during the step (no predator content remains anywhere on the grid),
yet `nb_predator` — set from the snapshot taken at the start of the step —
still reads `1` after `update` returns. -/
theorem c2_counts_not_reconciled :
    (Simulation.new c2Config ⟨[], [1, 1]⟩).isSome = true
    ∧ holdsPredator (c2Start.grid (1, 1)) = true
    ∧ (coordsRowMajor 3 3).countP (fun c => holdsPredator (c2After.grid c)) = 0
    ∧ c2After.nb_predator = 1 := by decide

/-- C9, counterexample: construction does not fail fast. A 2 x 2 grid asked
to hold five prey (more than `width*height = 4`) constructs a simulation
anyway; the counter reports all five placements while only four sites
actually hold prey (one placement silently overwrote an earlier one). -/
theorem c9_constructs_over_capacity :
    c9Sim.isSome = true
    ∧ (c9Sim.getD junkSim).nb_prey = 5
    ∧ c9Config.width * c9Config.height = 4
    ∧ (coordsRowMajor 2 2).countP (fun c => holdsPrey ((c9Sim.getD junkSim).grid c)) = 4
    := by decide

/-- C9, amended: `Simulation::new` performs no validation at all. It
constructs for every configuration with positive dimensions (over-capacity
populations included, collisions silently overwriting), it constructs even
for zero-sized dimensions when both initial populations are zero, and with a
positive initial population and a zero-sized dimension it panics while
sampling (`random_range` over an empty range) rather than returning a
structured rejection. -/
theorem c9_new_never_validates (config : SimulationConfig) (rng : Rng) :
    (config.width ≠ 0 → config.height ≠ 0 → (Simulation.new config rng).isSome = true)
    ∧ (config.nb_prey_init = 0 → config.nb_predator_init = 0 →
        (Simulation.new config rng).isSome = true)
    ∧ ((config.width = 0 ∨ config.height = 0) →
        (config.nb_prey_init ≠ 0 ∨ config.nb_predator_init ≠ 0) →
        Simulation.new config rng = none) := by
  refine ⟨fun h1 h2 => ?_, fun h1 h2 => ?_, fun h1 h2 => ?_⟩ <;>
    simp only [Simulation.new]
  · rw [if_neg]
    · rfl
    · rintro ⟨-, h | h⟩
      · exact h1 h
      · exact h2 h
  · rw [if_neg]
    · rfl
    · rintro ⟨h | h, -⟩
      · exact h h1
      · exact h h2
  · rw [if_pos ⟨h2, h1⟩]

/-- C9, witness for the amended theorem at a concrete configuration. -/
theorem c9_amended_witness :
    (Simulation.new c9Config ⟨[], []⟩).isSome = true :=
  (c9_new_never_validates c9Config ⟨[], []⟩).1 (by decide) (by decide)

/-- C3, counterexample: a predator whose hunger after the hunting attempt is
`7`, at or above half of `death_after = 10`, nevertheless moves: its update
returns `true` and its coordinate changes from `(1,1)` to `(0,0)`. -/
theorem c3_counterexample :
    (Predator.update c3Predator none c3Contents c3Empties ⟨[mkRat 1 2], [0]⟩).self.hunger = 7
    ∧ c3Predator.death_after / 2 ≤ 7
    ∧ (Predator.update c3Predator none c3Contents c3Empties ⟨[mkRat 1 2], [0]⟩).removed = true
    ∧ (Predator.update c3Predator none c3Contents c3Empties ⟨[mkRat 1 2], [0]⟩).self.x = 0
    ∧ (Predator.update c3Predator none c3Contents c3Empties ⟨[mkRat 1 2], [0]⟩).self.y = 0
    ∧ c3Predator.x = 1 ∧ c3Predator.y = 1 := by decide

/-- C3, amended: when hunger is at or above half of `death_after`, the
predator does not reproduce — `Predator::reproduce` refuses immediately,
consuming no randomness — but movement is not blocked by the hunger
threshold (the counterexample shows such a predator moving). -/
theorem c3_no_reproduction_when_hungry (p : Predator) (cs : List CellAt)
    (es : List (ℤ × ℤ)) (rng : Rng) (h : p.death_after / 2 ≤ p.hunger) :
    Predator.reproduce p cs es rng = ⟨false, [], rng⟩ := by
  unfold Predator.reproduce
  rw [if_pos h]

/-- C3, witness for the amended theorem. -/
theorem c3_amended_witness :
    Predator.reproduce c3Predator c3Contents c3Empties ⟨[], []⟩ = ⟨false, [], ⟨[], []⟩⟩ :=
  c3_no_reproduction_when_hungry c3Predator c3Contents c3Empties ⟨[], []⟩ (by decide)

/-- C4, counterexample: with two prey neighbours, the hunting draw for the
first (`9/10`, at or above `hunting_factor = 1/2`) fails, and the predator
then draws again (`1/10`) and kills the second prey neighbour `(0,1)` — both
draws are consumed, contradicting "the hunting random value is drawn only
for the first prey neighbour, and if that draw fails no other prey neighbour
is attacked". -/
theorem c4_second_neighbour_attacked :
    c4Contents.all (fun cv => cv.2.is_prey) = true
    ∧ Predator.hunt c4Predator c4Contents ⟨[mkRat 9 10, mkRat 1 10], []⟩ =
        ⟨{ c4Predator with hunger := 0 }, [((0, 1), Cell.emptyCell)], true, ⟨[], []⟩⟩
    := by decide

/-- C4, amended: the predator scans the prey neighbours in iteration order,
drawing a fresh hunting value for each until one succeeds; at most one prey
is killed per update (the write list of `hunt` never exceeds one entry, and
is empty whenever hunting failed). -/
theorem c4_hunt_kills_at_most_one (p : Predator) (cs : List CellAt) (rng : Rng) :
    (Predator.hunt p cs rng).writes.length ≤ 1
    ∧ ((Predator.hunt p cs rng).success = false → (Predator.hunt p cs rng).writes = []) := by
  induction cs generalizing rng with
  | nil => simp [Predator.hunt]
  | cons cv rest ih =>
    simp only [Predator.hunt]
    split
    · split
      · exact ⟨by simp, by simp⟩
      · exact ih _
    · exact ih rng

/-- C4, witness for the amended theorem: a run in which both draws fail
kills nothing. -/
theorem c4_amended_witness :
    (Predator.hunt c4Predator c4Contents ⟨[1, 1], []⟩).writes.length ≤ 1
    ∧ (Predator.hunt c4Predator c4Contents ⟨[1, 1], []⟩).writes = [] :=
  ⟨(c4_hunt_kills_at_most_one c4Predator c4Contents ⟨[1, 1], []⟩).1,
   (c4_hunt_kills_at_most_one c4Predator c4Contents ⟨[1, 1], []⟩).2 (by decide)⟩

/-- C5, counterexample: a predator surrounded by eight prey (no empty
neighbour at snapshot time) hunts successfully — `(0,0)` is emptied and
hunger resets to `0` — yet its update returns `false` without moving into or
reproducing into the freshly vacated site: the empty-neighbour list was
computed before hunting, so the hunted site is not offered to the same
predator's reproduction or movement. Under the claim, the random move into
the vacated site would have occurred and the update would have returned
`true`. -/
theorem c5_hunted_site_not_reusable :
    c5Contents.all (fun cv => cv.2.is_prey) = true
    ∧ Predator.update c5Predator none c5Contents [] ⟨[mkRat 1 2, 0], []⟩ =
        ⟨false, { c5Predator with hunger := 0 }, [((0, 0), Cell.emptyCell)], ⟨[], []⟩⟩
    := by decide

/-- Every write performed by `Predator::hunt` empties a cell. -/
theorem hunt_writes_are_empty (p : Predator) (cs : List CellAt) (rng : Rng) :
    ∀ w ∈ (Predator.hunt p cs rng).writes, w.2 = Cell.emptyCell := by
  induction cs generalizing rng with
  | nil => simp [Predator.hunt]
  | cons cv rest ih =>
    simp only [Predator.hunt]
    split
    · split
      · simp
      · exact ih _
    · exact ih rng

/-- A successful `choose` returns an element of the slice. -/
theorem chooseRand_mem {α : Type} (l : List α) (rng : Rng) (c : α)
    (h : (chooseRand l rng).1 = some c) : c ∈ l := by
  cases l with
  | nil => simp [chooseRand] at h
  | cons a t =>
    simp only [chooseRand] at h
    exact List.getElem?_mem h

/-- Offspring produced by `Predator::reproduce` are placed into cells of the
empty-neighbour list it was given. -/
theorem reproduce_writes_mem (p : Predator) (cs : List CellAt)
    (es : List (ℤ × ℤ)) (rng : Rng) :
    ∀ w ∈ (Predator.reproduce p cs es rng).writes, w.1 ∈ es := by
  intro w hw
  simp only [Predator.reproduce] at hw
  split at hw
  · simp at hw
  · split at hw
    · simp at hw
    · split at hw
      · simp at hw
      · split at hw
        next c heq =>
          rw [List.mem_singleton] at hw
          subst hw
          exact chooseRand_mem es _ c heq
        next => simp at hw

/-- The random-fallback move of `Predator::move_to` targets a cell of the
empty-neighbour list. -/
theorem randomMove_writes_mem (p : Predator) (es : List (ℤ × ℤ)) (rng : Rng) :
    ∀ w ∈ (Predator.randomMove p es rng).writes, w.1 ∈ es := by
  intro w hw
  simp only [Predator.randomMove] at hw
  split at hw
  next c heq =>
    rw [List.mem_singleton] at hw
    subst hw
    exact chooseRand_mem es _ c heq
  next => simp at hw

/-- Every move performed by `Predator::move_to` targets a cell of the
empty-neighbour list it was given. -/
theorem move_to_writes_mem (p : Predator) (np : Option (ℤ × ℤ))
    (es : List (ℤ × ℤ)) (rng : Rng) :
    ∀ w ∈ (Predator.move_to p np es rng).writes, w.1 ∈ es := by
  intro w hw
  simp only [Predator.move_to] at hw
  split at hw
  · simp at hw
  · split at hw
    · split at hw
      next e heq =>
        rw [List.mem_singleton] at hw
        subst hw
        exact List.mem_of_find?_eq_some heq
      next => exact randomMove_writes_mem p es rng w hw
    · exact randomMove_writes_mem p es rng w hw

/-- C5, amended: hunting is evaluated before reproduction, which precedes
movement, but the empty-neighbour list is snapshotted before hunting: every
cell into which `Predator::update` writes a predator (offspring or the moved
self) belongs to the pre-hunt empty-neighbour list, so a site emptied by the
predator's own hunt is never used by its reproduction or movement in the
same update (it only becomes available to organisms evaluated later in the
step). -/
theorem c5_predator_writes_only_snapshot_empties (p : Predator)
    (np : Option (ℤ × ℤ)) (cs : List CellAt) (es : List (ℤ × ℤ)) (rng : Rng) :
    ∀ w ∈ (Predator.update p np cs es rng).writes,
      w.2.is_predator = true → w.1 ∈ es := by
  by_cases hd : rng.nextProb.1 < p.death_rate
  · simp [Predator.update, hd]
  · by_cases hs : p.death_after ≤ p.hunger + 1
    · simp [Predator.update, hd, hs]
    · intro w hw hpred
      simp only [Predator.update, if_neg hd, if_neg hs] at hw
      split at hw <;>
        rcases List.mem_append.mp hw with hl | hr2
      · have hempty := hunt_writes_are_empty _ _ _ w hl
        rw [hempty] at hpred
        exact absurd hpred (by decide)
      · exact reproduce_writes_mem _ _ _ _ w hr2
      · have hempty := hunt_writes_are_empty _ _ _ w hl
        rw [hempty] at hpred
        exact absurd hpred (by decide)
      · exact move_to_writes_mem _ _ _ _ w hr2

/-- C5, witness for the amended theorem: the predator of the C3 scenario
moves into `(0,0)`, which indeed lies in its pre-snapshot empty list. -/
theorem c5_amended_witness : ((0 : ℤ), (0 : ℤ)) ∈ c3Empties :=
  c5_predator_writes_only_snapshot_empties c3Predator none c3Contents c3Empties
    ⟨[mkRat 1 2], [0]⟩
    ((0, 0), Cell.set_content
      (.predator { c3Predator with hunger := 7, x := 0, y := 0 }) false true)
    (by decide) (by decide)

/-- `Predator::hunt` resets hunger exactly on success and leaves it
untouched otherwise. -/
theorem hunt_self_hunger (p : Predator) (cs : List CellAt) (rng : Rng) :
    (Predator.hunt p cs rng).self.hunger =
      if (Predator.hunt p cs rng).success then 0 else p.hunger := by
  induction cs generalizing rng with
  | nil => simp [Predator.hunt]
  | cons cv rest ih =>
    simp only [Predator.hunt]
    split
    · split
      · simp
      · exact ih _
    · exact ih _

/-- The random-fallback move never touches hunger. -/
theorem randomMove_self_hunger (p : Predator) (es : List (ℤ × ℤ)) (rng : Rng) :
    (Predator.randomMove p es rng).self.hunger = p.hunger := by
  simp only [Predator.randomMove]
  split <;> simp

/-- `Predator::move_to` never touches hunger. -/
theorem move_to_self_hunger (p : Predator) (np : Option (ℤ × ℤ))
    (es : List (ℤ × ℤ)) (rng : Rng) :
    (Predator.move_to p np es rng).self.hunger = p.hunger := by
  simp only [Predator.move_to]
  split
  · rfl
  · split
    · split
      · simp
      · exact randomMove_self_hunger _ _ _
    · exact randomMove_self_hunger _ _ _

/-- A random-fallback move that reports `moved` performed a write. -/
theorem randomMove_moved_writes (p : Predator) (es : List (ℤ × ℤ)) (rng : Rng) :
    (Predator.randomMove p es rng).moved = true →
      (Predator.randomMove p es rng).writes ≠ [] := by
  simp only [Predator.randomMove]
  split <;> simp

/-- A `move_to` that reports `moved` performed a write (it relocated the
predator into some cell): removal without any write can only be death. -/
theorem move_to_moved_writes (p : Predator) (np : Option (ℤ × ℤ))
    (es : List (ℤ × ℤ)) (rng : Rng) :
    (Predator.move_to p np es rng).moved = true →
      (Predator.move_to p np es rng).writes ≠ [] := by
  simp only [Predator.move_to]
  split
  · simp
  · split
    · split
      · simp
      · exact randomMove_moved_writes _ _ _
    · exact randomMove_moved_writes _ _ _

/-- C6: hunger is incremented exactly once per update; the predator dies —
returning `true` with no writes, before hunting, reproduction or movement
are even considered, with only the one death draw consumed — exactly when
the draw is below `death_rate` or the incremented hunger reaches
`death_after`; and when it survives those checks its final hunger is `0`
precisely when its hunt succeeded and `hunger + 1` otherwise, with any
`true` return in the survival path accompanied by a relocation write (a
move, never a silent removal). -/
theorem c6_death_priority_and_hunger_accounting (p : Predator)
    (np : Option (ℤ × ℤ)) (cs : List CellAt) (es : List (ℤ × ℤ)) (rng : Rng) :
    ((rng.nextProb.1 < p.death_rate ∨ p.death_after ≤ p.hunger + 1) →
      Predator.update p np cs es rng =
        ⟨true, { p with hunger := p.hunger + 1 }, [], rng.nextProb.2⟩)
    ∧ (¬ rng.nextProb.1 < p.death_rate → p.hunger + 1 < p.death_after →
        ((Predator.update p np cs es rng).self.hunger =
          if (Predator.hunt { p with hunger := p.hunger + 1 } cs rng.nextProb.2).success
          then 0 else p.hunger + 1)
        ∧ ((Predator.update p np cs es rng).removed = true →
            (Predator.update p np cs es rng).writes ≠ [])) := by
  constructor
  · intro h
    by_cases hd : rng.nextProb.1 < p.death_rate
    · simp only [Predator.update, if_pos hd]
    · rcases h with h | h
      · exact absurd h hd
      · simp only [Predator.update, if_neg hd,
          if_pos (show p.death_after ≤ p.hunger + 1 from h)]
  · intro h1 h2
    simp only [Predator.update, if_neg h1,
      if_neg (show ¬ p.death_after ≤ p.hunger + 1 from not_le.mpr h2)]
    constructor
    · split
      · rw [hunt_self_hunger]
      · rw [move_to_self_hunger, hunt_self_hunger]
    · split
      · simp
      · intro hmv hnil
        rcases List.append_eq_nil.mp hnil with ⟨-, hmvnil⟩
        exact move_to_moved_writes _ _ _ _ hmv hmvnil

/-- C6, witness: a predator with `death_after = 1` starves deterministically
— one increment, removal with no writes, one draw consumed. -/
theorem c6_witness :
    Predator.update (Predator.new 0 0 1 1 1 3 3) none [] [] ⟨[1], []⟩ =
      ⟨true, { Predator.new 0 0 1 1 1 3 3 with hunger := 1 }, [], ⟨[], []⟩⟩ :=
  (c6_death_priority_and_hunger_accounting (Predator.new 0 0 1 1 1 3 3)
    none [] [] ⟨[1], []⟩).1 (by decide)

/-- Per axis, the code's step (`direct_dist <= wrap_dist` picks the direct
direction) agrees with the specification's description (shorter of direct and
wrap-around, ties toward the direct path). -/
theorem axis_step_eq (c t dim : ℤ) :
    (if t = c then (0 : ℤ)
     else if |t - c| ≤ dim - |t - c| then (if c < t then 1 else -1)
     else if c < t then -1 else 1) = spec_axis_step c t dim := by
  unfold spec_axis_step
  by_cases h : t = c
  · simp [h]
  · simp only [if_neg h]
    rcases lt_trichotomy (|t - c|) (dim - |t - c|) with hlt | heq | hgt
    · rw [if_pos (le_of_lt hlt), if_pos hlt]
    · rw [if_pos (le_of_eq heq), if_neg (not_lt.mpr (le_of_eq heq)),
        if_neg (not_lt.mpr (ge_of_eq heq))]
    · rw [if_neg (not_le.mpr hgt), if_neg (not_lt.mpr (le_of_lt hgt)), if_pos hgt]
      by_cases hct : c < t <;> simp [hct]

/-- The code's directed single-step target is exactly the specification's
wrap-aware target. -/
theorem step_target_eq_spec (p : Predator) (t : ℤ × ℤ) :
    p.step_target t = spec_directed_target p t := by
  simp only [Predator.step_target, spec_directed_target]
  rw [axis_step_eq p.x t.1 p.grid_width, axis_step_eq p.y t.2 p.grid_height]

/-- On a non-empty empty-neighbour list, the random fallback of
`Predator::move_to` is exactly a random move: the next raw draw selects the
target modulo the list length. -/
theorem randomMove_spec (p : Predator) (es : List (ℤ × ℤ)) (rng : Rng)
    (hne : es ≠ []) :
    spec_random_move p es rng (Predator.randomMove p es rng) := by
  cases es with
  | nil => exact absurd rfl hne
  | cons a tl =>
    have hlt : rng.nextNat.1 % (a :: tl).length < (a :: tl).length :=
      Nat.mod_lt _ (by simp)
    refine ⟨rng.nextNat.1, rng.nextNat.2, hlt, rfl, ?_⟩
    simp only [Predator.randomMove, chooseRand, List.getElem?_eq_getElem hlt]
    rfl

/-- C7: `Predator::move_to` follows the specification's movement rule. With
no empty neighbour it returns `false` and changes nothing. With a known
nearest prey whose wrap-aware directed target is an empty neighbour, it
moves there and returns `true`. If the directed target is not among the
empty neighbours, or no prey location is known, it moves into a randomly
selected empty neighbour and returns `true`. -/
theorem c7_move_to_follows_spec (p : Predator) (np : Option (ℤ × ℤ))
    (es : List (ℤ × ℤ)) (rng : Rng) :
    (es = [] → Predator.move_to p np es rng = ⟨false, p, [], rng⟩)
    ∧ (∀ t, np = some t → es ≠ [] → spec_directed_target p t ∈ es →
        Predator.move_to p np es rng = moved_into p (spec_directed_target p t) rng)
    ∧ (∀ t, np = some t → es ≠ [] → spec_directed_target p t ∉ es →
        spec_random_move p es rng (Predator.move_to p np es rng))
    ∧ (np = none → es ≠ [] →
        spec_random_move p es rng (Predator.move_to p np es rng)) := by
  refine ⟨fun h => ?_, fun t hnp hne hmem => ?_, fun t hnp hne hmem => ?_,
    fun hnp hne => ?_⟩
  · subst h
    rfl
  · subst hnp
    have hE : es.isEmpty = false := List.isEmpty_eq_false.mpr hne
    have htgt := step_target_eq_spec p t
    rw [← htgt] at hmem
    rcases hfind : es.find?
        (fun e => decide (e.1 = (p.step_target t).1 ∧ e.2 = (p.step_target t).2))
      with - | e
    · have hcontra := List.find?_eq_none.mp hfind _ hmem
      simp at hcontra
    · have hpe := List.find?_some hfind
      simp only [decide_eq_true_eq] at hpe
      have he : e = p.step_target t := Prod.ext hpe.1 hpe.2
      subst he
      simp only [Predator.move_to, hE, Bool.false_eq_true, if_false, hfind]
      rw [htgt]
      rfl
  · subst hnp
    have hE : es.isEmpty = false := List.isEmpty_eq_false.mpr hne
    have htgt := step_target_eq_spec p t
    have hfind : es.find?
        (fun e => decide (e.1 = (p.step_target t).1 ∧ e.2 = (p.step_target t).2))
        = none := by
      refine List.find?_eq_none.mpr (fun x hx hpx => ?_)
      rw [decide_eq_true_eq] at hpx
      have hxe : x = p.step_target t := Prod.ext hpx.1 hpx.2
      rw [hxe, htgt] at hx
      exact hmem hx
    simp only [Predator.move_to, hE, Bool.false_eq_true, if_false, hfind]
    exact randomMove_spec p es rng hne
  · subst hnp
    have hE : es.isEmpty = false := List.isEmpty_eq_false.mpr hne
    simp only [Predator.move_to, hE, Bool.false_eq_true, if_false]
    exact randomMove_spec p es rng hne

/-- C7, witness: the hungry predator at `(1,1)` with nearest prey `(0,0)`
moves into the wrap-aware directed target `(0,0)` of its empty list. -/
theorem c7_witness :
    Predator.move_to c3Predator (some (0, 0)) c3Empties ⟨[], []⟩ =
      moved_into c3Predator (spec_directed_target c3Predator (0, 0)) ⟨[], []⟩ :=
  (c7_move_to_follows_spec c3Predator (some (0, 0)) c3Empties ⟨[], []⟩).2.1
    (0, 0) rfl (by decide) (by decide)

/-- C8: within one step the whole predator phase runs before the prey phase
— the final grid is obtained by running `prey_phase` on the grid produced by
`predator_phase` over the snapshot (first conjunct) — and each prey cell of
the snapshot is re-checked at its turn: when its `is_prey` flag is no longer
set (it was emptied by a hunt) the iteration leaves the state completely
unchanged (second conjunct), and only when the flag is still set is the prey
rule invoked on the current grid (third conjunct). -/
theorem c8_predators_before_prey_with_recheck :
    (∀ (sim : Simulation) (rng : Rng),
      (Simulation.update sim rng).grid =
        (prey_phase sim.width sim.height sim.collect_cells.prey_cells
          ((predator_phase sim.width sim.height sim.prey_kdtree
              sim.collect_cells.prey_positions sim.collect_cells.predator_cells
              (sim.grid, sim.collect_cells.predator_positions, rng)).1,
            sim.collect_cells.prey_positions,
            (predator_phase sim.width sim.height sim.prey_kdtree
              sim.collect_cells.prey_positions sim.collect_cells.predator_cells
              (sim.grid, sim.collect_cells.predator_positions, rng)).2.2)).1)
    ∧ (∀ (w h : ℕ) (c : ℤ × ℤ) (cells : List (ℤ × ℤ))
        (st : Grid × List (ℤ × ℤ) × Rng), (st.1 c).is_prey = false →
        prey_phase w h (c :: cells) st = prey_phase w h cells st)
    ∧ (∀ (w h : ℕ) (c : ℤ × ℤ) (cells : List (ℤ × ℤ))
        (st : Grid × List (ℤ × ℤ) × Rng), (st.1 c).is_prey = true →
        prey_phase w h (c :: cells) st =
          prey_phase w h cells
            ((Cell.update w h st.1 c none st.2.2).1,
             if (Cell.update w h st.1 c none st.2.2).2.1 then st.2.1.erase c
             else st.2.1,
             (Cell.update w h st.1 c none st.2.2).2.2)) := by
  refine ⟨fun sim rng => rfl, fun w h c cells st hc => ?_, fun w h c cells st hc => ?_⟩
  · simp only [prey_phase, List.foldl_cons, hc, Bool.false_eq_true, if_false]
  · simp only [prey_phase, List.foldl_cons, hc, if_true]

/-- C8, witness: a snapshot prey cell whose site no longer carries the
`is_prey` flag is skipped without touching grid, positions or randomness. -/
theorem c8_witness :
    prey_phase 3 3 [(0, 0)] (junkSim.grid, [], ⟨[], []⟩) =
      prey_phase 3 3 [] (junkSim.grid, [], ⟨[], []⟩) :=
  c8_predators_before_prey_with_recheck.2.1 3 3 (0, 0) []
    (junkSim.grid, [], ⟨[], []⟩) (by decide)

/-- The hard-coded death-rate constant is the rational one tenth. -/
theorem mkRat_one_div_ten : (mkRat 1 10 : ℚ) = 1 / 10 := by
  rw [Rat.mkRat_eq_div]
  norm_num

/-- Seeding invariant: if the constructor `mk` only ever produces predators
with the constant death rate and starting hunger, and the starting grid
satisfies the same property, then so does the grid after any number of
seeding placements. -/
theorem seed_fold_pred_inv (config : SimulationConfig) (mk : ℤ → ℤ → Indiv)
    (ip ipd : Bool)
    (hmk : ∀ x y q, mk x y = .predator q →
      q.death_rate = mkRat 1 10 ∧ q.hunger = config.predator_death_after / 2)
    (l : List ℕ) (st : Grid × List (ℤ × ℤ) × ℕ × Rng)
    (hst : ∀ c q, (st.1 c).content = some (.predator q) →
      q.death_rate = mkRat 1 10 ∧ q.hunger = config.predator_death_after / 2) :
    ∀ c q, (((l.foldl (fun st _ => seed_step config mk ip ipd st) st).1) c).content
        = some (.predator q) →
      q.death_rate = mkRat 1 10 ∧ q.hunger = config.predator_death_after / 2 := by
  induction l generalizing st with
  | nil => exact hst
  | cons a tl ih =>
    refine ih _ ?_
    intro c q hq
    simp only [seed_step, setCell] at hq
    split at hq
    · simp only [Cell.set_content, Option.some.injEq] at hq
      exact hmk _ _ q hq
    · exact hst c q hq

/-- C10: every predator constructed by `Predator::new` has its natural death
probability fixed at exactly `1/10` and its initial hunger at
`death_after / 2` (first conjunct); every offspring placed by
`Predator::reproduce` carries the same constants, with the parent's
`death_after` (second conjunct); and every predator present on the grid of a
freshly constructed simulation carries them, for every configuration — no
configuration field can change either value (third conjunct). -/
theorem c10_predator_constants :
    (∀ (hf rr : ℚ) (da : ℕ) (x y gw gh : ℤ),
      (Predator.new hf rr da x y gw gh).death_rate = 1 / 10
      ∧ (Predator.new hf rr da x y gw gh).hunger = da / 2)
    ∧ (∀ (p : Predator) (cs : List CellAt) (es : List (ℤ × ℤ)) (rng : Rng),
        ∀ w ∈ (Predator.reproduce p cs es rng).writes, ∀ q,
          w.2.content = some (.predator q) →
          q.death_rate = 1 / 10 ∧ q.hunger = p.death_after / 2)
    ∧ (∀ (config : SimulationConfig) (rng : Rng) (sim : Simulation),
        Simulation.new config rng = some sim →
        ∀ (c : ℤ × ℤ) (q : Predator),
          (sim.grid c).content = some (.predator q) →
          q.death_rate = 1 / 10 ∧ q.hunger = config.predator_death_after / 2) := by
  refine ⟨fun hf rr da x y gw gh => ⟨mkRat_one_div_ten, rfl⟩, ?_, ?_⟩
  · intro p cs es rng w hw q hq
    simp only [Predator.reproduce] at hw
    split at hw
    · simp at hw
    · split at hw
      · simp at hw
      · split at hw
        · simp at hw
        · split at hw
          next c heq =>
            rw [List.mem_singleton] at hw
            subst hw
            simp only [Cell.set_content, Option.some.injEq, Indiv.predator.injEq] at hq
            subst hq
            exact ⟨mkRat_one_div_ten, rfl⟩
          next => simp at hw
  · intro config rng sim hnew c q hq
    simp only [Simulation.new] at hnew
    split at hnew
    · exact absurd hnew (by simp)
    · rw [Option.some.injEq] at hnew
      subst hnew
      have inv1 := seed_fold_pred_inv config
        (fun x y => .prey (Prey.new config.prey_reproduction_rate
          config.prey_moving_factor x y)) true false
        (fun x y q h => absurd h (by simp))
        (List.range config.nb_prey_init)
        ((fun _ => Cell.new), [], 0, rng)
        (fun c q hq => absurd hq (by simp [Cell.new]))
      have inv2 := seed_fold_pred_inv config
        (fun x y => .predator (Predator.new config.predator_hunting_factor
          config.predator_reproduction_rate config.predator_death_after
          x y (config.width : ℤ) (config.height : ℤ))) false true
        (fun x y q h => by
          rw [Indiv.predator.injEq] at h
          subst h
          exact ⟨rfl, rfl⟩)
        (List.range config.nb_predator_init)
        (((List.range config.nb_prey_init).foldl
            (fun st _ => seed_step config
              (fun x y => .prey (Prey.new config.prey_reproduction_rate
                config.prey_moving_factor x y)) true false st)
            ((fun _ => Cell.new), [], 0, rng)).1, [], 0,
         ((List.range config.nb_prey_init).foldl
            (fun st _ => seed_step config
              (fun x y => .prey (Prey.new config.prey_reproduction_rate
                config.prey_moving_factor x y)) true false st)
            ((fun _ => Cell.new), [], 0, rng)).2.2.2)
        (fun c' q' hq' => inv1 c' q' hq')
      have key := inv2 c q hq
      exact ⟨mkRat_one_div_ten ▸ key.1, key.2⟩

/-- C10, witness: the default-style predator carries the constants. -/
theorem c10_witness :
    (Predator.new (mkRat 1 2) (mkRat 2 5) 25 3 4 100 100).death_rate = 1 / 10
    ∧ (Predator.new (mkRat 1 2) (mkRat 2 5) 25 3 4 100 100).hunger = 12 :=
  c10_predator_constants.1 (mkRat 1 2) (mkRat 2 5) 25 3 4 100 100

end LifeGame
